import Mathlib

/-!
Verification development for the runtime-interface layer of the `opend`
compiler backend: a shallow embedding of `src/gen/runtime.cpp` (the Runtime
ABI Registry) and `src/gen/typinf.c` (the Type Descriptor Canonicalizer),
with theorems settling the specification's claims about them.

Conventions of the embedding:
* LLVM machinery (modules, functions, globals, attribute lists) is modelled
  by first-order data; a module is its symbol table, split into the function
  declarations and the global-variable declarations.
* The mutable globals of the two translation units (`M`, `runtime_failed`,
  the `noruntime` command-line flag, each `Type`'s `vtinfo` slot, the
  `internalTI` cache, the `llvmTouched`/`llvmValue` fields of descriptors)
  are collected into explicit state records threaded through the functions.
* `error(...); fatal()` / `assert(0)` paths are modelled with `Except`:
  an `.error` result is a terminated compilation, so no mutated state
  survives it (matching `fatal()`, which unwinds the whole compilation).
-/

/-- LLVM parameter/function attributes used by `runtime.cpp`
(`using namespace llvm::Attribute`). -/
inductive Attr where
  | NoAlias
  | NoUnwind
  | ReadOnly
  | ReadNone
  | NoCapture
deriving DecidableEq

/-- An `llvm::AttrListPtr`: attributes with the index they are attached to
(0 = return value, 1.. = parameters, `funcAttrIdx` = the function itself). -/
abbrev AttrList := List (Nat × Attr)

/-- The `~0U` function-level attribute index used in `runtime.cpp`. -/
def funcAttrIdx : Nat := 4294967295

/-- `AttrListPtr::addAttr(idx, attr)`. -/
def addAttr (l : AttrList) (i : Nat) (a : Attr) : AttrList := l ++ [(i, a)]

def NoAttrs : AttrList := []
def Attr_NoAlias : AttrList := addAttr NoAttrs 0 Attr.NoAlias
def Attr_NoUnwind : AttrList := addAttr NoAttrs funcAttrIdx Attr.NoUnwind
def Attr_ReadOnly : AttrList := addAttr NoAttrs funcAttrIdx Attr.ReadOnly
def Attr_ReadOnly_NoUnwind : AttrList := addAttr Attr_ReadOnly funcAttrIdx Attr.NoUnwind
def Attr_ReadOnly_1_NoCapture : AttrList := addAttr Attr_ReadOnly 1 Attr.NoCapture
def Attr_ReadOnly_1_3_NoCapture : AttrList := addAttr Attr_ReadOnly_1_NoCapture 3 Attr.NoCapture
def Attr_ReadOnly_1_4_NoCapture : AttrList := addAttr Attr_ReadOnly_1_NoCapture 4 Attr.NoCapture
def Attr_ReadOnly_NoUnwind_1_NoCapture : AttrList :=
  addAttr Attr_ReadOnly_1_NoCapture funcAttrIdx Attr.NoUnwind
def Attr_ReadNone : AttrList := addAttr NoAttrs funcAttrIdx Attr.ReadNone
def Attr_1_NoCapture : AttrList := addAttr NoAttrs 1 Attr.NoCapture
def Attr_NoAlias_1_NoCapture : AttrList := addAttr Attr_1_NoCapture 0 Attr.NoAlias
def Attr_NoAlias_3_NoCapture : AttrList := addAttr Attr_NoAlias 3 Attr.NoCapture
def Attr_1_2_NoCapture : AttrList := addAttr Attr_1_NoCapture 2 Attr.NoCapture
def Attr_1_3_NoCapture : AttrList := addAttr Attr_1_NoCapture 3 Attr.NoCapture
def Attr_1_4_NoCapture : AttrList := addAttr Attr_1_NoCapture 4 Attr.NoCapture

/-- The LLVM types `LLVM_D_BuildRuntimeModule` builds its signatures from.
Struct and function types only ever occur with the arities used there
(`rt_array`, the complex pairs and the delegate shapes are two-field structs;
the delegate function pointers take two or three parameters), so those
constructors carry their fields positionally.  `objectTy`, `classInfoTy`,
`typeInfoTy` stand for `DtoType` of the front end's `Object`, `ClassInfo`
and `TypeInfo` class types, `mutexTy` for `DtoMutexType()`, `hiddenTy` for
`llvm::OpaqueType::get()` — all opaque external aggregates here. -/
inductive LLType where
  | voidTy
  | boolTy
  | byteTy
  | shortTy
  | intTy
  | longTy
  | sizeTy
  | floatTy
  | doubleTy
  | x86fp80Ty
  | ptrTy (t : LLType)
  | structTy2 (a b : LLType)
  | fnTy2 (p1 p2 r : LLType)
  | fnTy3 (p1 p2 p3 r : LLType)
  | objectTy
  | classInfoTy
  | typeInfoTy
  | hiddenTy
  | mutexTy
deriving DecidableEq

/-- `rt_ptr`. -/
def rt_ptr (t : LLType) : LLType := LLType.ptrTy t

/-- `rt_array`: `{ size_t, T* }`. -/
def rt_array (elemty : LLType) : LLType :=
  LLType.structTy2 LLType.sizeTy (rt_ptr elemty)

/-- `rt_dg1`: `{ i8*, i32(i8*,i8*)* }`. -/
def rt_dg1 : LLType :=
  LLType.structTy2 (rt_ptr LLType.byteTy)
    (rt_ptr (LLType.fnTy2 (rt_ptr LLType.byteTy) (rt_ptr LLType.byteTy) LLType.intTy))

/-- `rt_dg2`: `{ i8*, i32(i8*,i8*,i8*)* }`. -/
def rt_dg2 : LLType :=
  LLType.structTy2 (rt_ptr LLType.byteTy)
    (rt_ptr (LLType.fnTy3 (rt_ptr LLType.byteTy) (rt_ptr LLType.byteTy)
      (rt_ptr LLType.byteTy) LLType.intTy))

/-- An `llvm::FunctionType`: return type and parameter types
(all catalogue signatures are non-variadic). -/
structure FunctionType where
  ret : LLType
  params : List LLType
deriving DecidableEq

/-- An `llvm::Function` declaration as the registry handles it:
its name, signature and attribute list. -/
structure RTFunction where
  name : String
  fty : FunctionType
  attrs : AttrList
deriving DecidableEq

/-- `llvm::GlobalValue` linkage (only external linkage occurs here). -/
inductive Linkage where
  | External
deriving DecidableEq

/-- An `llvm::GlobalVariable` declaration: name, element type, constness
and linkage — the data `LLVM_D_GetRuntimeGlobal` copies. -/
structure RTGlobal where
  name : String
  elemTy : LLType
  isConst : Bool
  linkage : Linkage
deriving DecidableEq

/-- An `llvm::Module` as this layer sees it: its function declarations
and its global-variable declarations. -/
structure LLModule where
  funcs : List RTFunction
  globals : List RTGlobal
deriving DecidableEq

/-- `Module::getFunction(name)`. -/
def LLModule.getFunction (m : LLModule) (n : String) : Option RTFunction :=
  m.funcs.find? (fun f => f.name = n)

/-- `Module::getNamedGlobal(name)`. -/
def LLModule.getNamedGlobal (m : LLModule) (n : String) : Option RTGlobal :=
  m.globals.find? (fun g => g.name = n)

/-- The fatal exits of this layer (`error(...); fatal()` and `assert`):
compilation terminates, nothing is retried. -/
inductive Fatal where
  | PolicyViolation
  | RuntimeSymbolMissing
  | AssertFail (msg : String)
deriving DecidableEq

deriving instance DecidableEq for Except

/-- The mutable globals of `runtime.cpp`: the lazily built runtime module
`M`, the `runtime_failed` flag (declared but never set by this code), the
`-noruntime` command-line option, and the target cpu choice that picks the
`real` type (`global.params.cpu == ARCHx86/_64`). -/
structure RTState where
  M : Option LLModule
  runtime_failed : Bool
  noruntime : Bool
  cpuIsX86 : Bool
deriving DecidableEq

/-- `void*` (`rt_ptr(byteTy)`). -/
def voidPtrTy : LLType := rt_ptr LLType.byteTy

/-- `rt_array(byteTy)`, a `char[]`. -/
def stringTy : LLType := rt_array LLType.byteTy

/-- `rt_array(shortTy)`, a `wchar[]`. -/
def wstringTy : LLType := rt_array LLType.shortTy

/-- `rt_array(intTy)`, a `dchar[]`. -/
def dstringTy : LLType := rt_array LLType.intTy

/-- The associative-array handle: pointer to an opaque LLVM type. -/
def aaTy : LLType := rt_ptr LLType.hiddenTy

/-- The `real` type: `X86_FP80` on x86/x86_64, `double` elsewhere. -/
def realTyOf (cpuIsX86 : Bool) : LLType :=
  if cpuIsX86 then LLType.x86fp80Ty else LLType.doubleTy

/-- Shorthand for one catalogue entry (`FunctionType::get` +
`Function::Create` + optional `setAttributes`). -/
def mkFn (n : String) (r : LLType) (ps : List LLType) (ats : AttrList) : RTFunction :=
  { name := n, fty := { ret := r, params := ps }, attrs := ats }

set_option maxHeartbeats 1000000 in
/-- `LLVM_D_BuildRuntimeModule`: the full support-routine catalogue, in
source order.  The module contains function declarations only — it creates
no global variables.  Local abbreviations of the source
(`voidTy`, ..., `cfloatTy`, `crealTy`) appear inline. -/
def LLVM_D_BuildRuntimeModule (cpuIsX86 : Bool) : LLModule :=
  { globals := [],
    funcs := [
    -- void _d_assert( char[] file, uint line ) and friends
    mkFn "_d_assert" LLType.voidTy [stringTy, LLType.intTy] NoAttrs,
    mkFn "_d_array_bounds" LLType.voidTy [stringTy, LLType.intTy] NoAttrs,
    mkFn "_d_switch_error" LLType.voidTy [stringTy, LLType.intTy] NoAttrs,
    -- void _d_assert_msg( char[] msg, char[] file, uint line )
    mkFn "_d_assert_msg" voidPtrTy [stringTy, stringTy, LLType.intTy] NoAttrs,
    -- void* _d_allocmemoryT(TypeInfo ti)
    mkFn "_d_allocmemoryT" voidPtrTy [LLType.typeInfoTy] Attr_NoAlias,
    -- void* _d_newarrayT/iT/vT(TypeInfo ti, size_t length)
    mkFn "_d_newarrayT" voidPtrTy [LLType.typeInfoTy, LLType.sizeTy] Attr_NoAlias,
    mkFn "_d_newarrayiT" voidPtrTy [LLType.typeInfoTy, LLType.sizeTy] Attr_NoAlias,
    mkFn "_d_newarrayvT" voidPtrTy [LLType.typeInfoTy, LLType.sizeTy] Attr_NoAlias,
    -- void* _d_newarraymT/miT/mvT(TypeInfo ti, size_t length, size_t* dims)
    mkFn "_d_newarraymT" voidPtrTy [LLType.typeInfoTy, LLType.sizeTy, rt_ptr LLType.sizeTy]
      Attr_NoAlias_3_NoCapture,
    mkFn "_d_newarraymiT" voidPtrTy [LLType.typeInfoTy, LLType.sizeTy, rt_ptr LLType.sizeTy]
      Attr_NoAlias_3_NoCapture,
    mkFn "_d_newarraymvT" voidPtrTy [LLType.typeInfoTy, LLType.sizeTy, rt_ptr LLType.sizeTy]
      Attr_NoAlias_3_NoCapture,
    -- void* _d_arraysetlengthT/iT(TypeInfo ti, size_t newlength, size_t plength, void* pdata)
    mkFn "_d_arraysetlengthT" voidPtrTy
      [LLType.typeInfoTy, LLType.sizeTy, LLType.sizeTy, voidPtrTy] NoAttrs,
    mkFn "_d_arraysetlengthiT" voidPtrTy
      [LLType.typeInfoTy, LLType.sizeTy, LLType.sizeTy, voidPtrTy] NoAttrs,
    -- Object _d_allocclass(ClassInfo ci)
    mkFn "_d_allocclass" voidPtrTy [LLType.classInfoTy] Attr_NoAlias,
    -- void _d_delarray(size_t plength, void* pdata)
    mkFn "_d_delarray" LLType.voidTy [LLType.sizeTy, voidPtrTy] NoAttrs,
    -- void _d_delmemory/_d_delinterface/_d_callfinalizer(void* p)
    mkFn "_d_delmemory" LLType.voidTy [voidPtrTy] NoAttrs,
    mkFn "_d_delinterface" LLType.voidTy [voidPtrTy] NoAttrs,
    mkFn "_d_callfinalizer" LLType.voidTy [voidPtrTy] NoAttrs,
    -- void _d_delclass(Object p)
    mkFn "_d_delclass" LLType.voidTy [LLType.objectTy] NoAttrs,
    -- ARRAY_INIT(TY, suffix): void _d_array_init_<suffix>(TY* a, size_t n, TY v)
    mkFn "_d_array_init_i16" LLType.voidTy
      [rt_ptr LLType.shortTy, LLType.sizeTy, LLType.shortTy] Attr_1_NoCapture,
    mkFn "_d_array_init_i32" LLType.voidTy
      [rt_ptr LLType.intTy, LLType.sizeTy, LLType.intTy] Attr_1_NoCapture,
    mkFn "_d_array_init_i64" LLType.voidTy
      [rt_ptr LLType.longTy, LLType.sizeTy, LLType.longTy] Attr_1_NoCapture,
    mkFn "_d_array_init_float" LLType.voidTy
      [rt_ptr LLType.floatTy, LLType.sizeTy, LLType.floatTy] Attr_1_NoCapture,
    mkFn "_d_array_init_double" LLType.voidTy
      [rt_ptr LLType.doubleTy, LLType.sizeTy, LLType.doubleTy] Attr_1_NoCapture,
    mkFn "_d_array_init_real" LLType.voidTy
      [rt_ptr (realTyOf cpuIsX86), LLType.sizeTy, realTyOf cpuIsX86] Attr_1_NoCapture,
    mkFn "_d_array_init_cfloat" LLType.voidTy
      [rt_ptr (LLType.structTy2 LLType.floatTy LLType.floatTy), LLType.sizeTy,
       LLType.structTy2 LLType.floatTy LLType.floatTy] Attr_1_NoCapture,
    mkFn "_d_array_init_cdouble" LLType.voidTy
      [rt_ptr (LLType.structTy2 LLType.doubleTy LLType.doubleTy), LLType.sizeTy,
       LLType.structTy2 LLType.doubleTy LLType.doubleTy] Attr_1_NoCapture,
    mkFn "_d_array_init_creal" LLType.voidTy
      [rt_ptr (LLType.structTy2 (realTyOf cpuIsX86) (realTyOf cpuIsX86)), LLType.sizeTy,
       LLType.structTy2 (realTyOf cpuIsX86) (realTyOf cpuIsX86)] Attr_1_NoCapture,
    mkFn "_d_array_init_pointer" LLType.voidTy
      [rt_ptr voidPtrTy, LLType.sizeTy, voidPtrTy] Attr_1_NoCapture,
    -- void _d_array_init_mem(void* a, size_t na, void* v, size_t nv)
    mkFn "_d_array_init_mem" LLType.voidTy
      [voidPtrTy, LLType.sizeTy, voidPtrTy, LLType.sizeTy] Attr_1_3_NoCapture,
    -- void _d_array_slice_copy(void* dst, size_t dstlen, void* src, size_t srclen)
    mkFn "_d_array_slice_copy" LLType.voidTy
      [voidPtrTy, LLType.sizeTy, voidPtrTy, LLType.sizeTy] Attr_1_3_NoCapture,
    -- STR_APPLY1: int _aApply??1(str, dg_t dg)
    mkFn "_aApplycw1" LLType.intTy [stringTy, rt_dg1] NoAttrs,
    mkFn "_aApplycd1" LLType.intTy [stringTy, rt_dg1] NoAttrs,
    mkFn "_aApplywc1" LLType.intTy [wstringTy, rt_dg1] NoAttrs,
    mkFn "_aApplywd1" LLType.intTy [wstringTy, rt_dg1] NoAttrs,
    mkFn "_aApplydc1" LLType.intTy [dstringTy, rt_dg1] NoAttrs,
    mkFn "_aApplydw1" LLType.intTy [dstringTy, rt_dg1] NoAttrs,
    -- STR_APPLY2: int _aApply??2(str, dg2_t dg)
    mkFn "_aApplycw2" LLType.intTy [stringTy, rt_dg2] NoAttrs,
    mkFn "_aApplycd2" LLType.intTy [stringTy, rt_dg2] NoAttrs,
    mkFn "_aApplywc2" LLType.intTy [wstringTy, rt_dg2] NoAttrs,
    mkFn "_aApplywd2" LLType.intTy [wstringTy, rt_dg2] NoAttrs,
    mkFn "_aApplydc2" LLType.intTy [dstringTy, rt_dg2] NoAttrs,
    mkFn "_aApplydw2" LLType.intTy [dstringTy, rt_dg2] NoAttrs,
    -- STR_APPLY_R1 (reverse iteration)
    mkFn "_aApplyRcw1" LLType.intTy [stringTy, rt_dg1] NoAttrs,
    mkFn "_aApplyRcd1" LLType.intTy [stringTy, rt_dg1] NoAttrs,
    mkFn "_aApplyRwc1" LLType.intTy [wstringTy, rt_dg1] NoAttrs,
    mkFn "_aApplyRwd1" LLType.intTy [wstringTy, rt_dg1] NoAttrs,
    mkFn "_aApplyRdc1" LLType.intTy [dstringTy, rt_dg1] NoAttrs,
    mkFn "_aApplyRdw1" LLType.intTy [dstringTy, rt_dg1] NoAttrs,
    -- STR_APPLY_R2 (reverse iteration, 2-arg delegate)
    mkFn "_aApplyRcw2" LLType.intTy [stringTy, rt_dg2] NoAttrs,
    mkFn "_aApplyRcd2" LLType.intTy [stringTy, rt_dg2] NoAttrs,
    mkFn "_aApplyRwc2" LLType.intTy [wstringTy, rt_dg2] NoAttrs,
    mkFn "_aApplyRwd2" LLType.intTy [wstringTy, rt_dg2] NoAttrs,
    mkFn "_aApplyRdc2" LLType.intTy [dstringTy, rt_dg2] NoAttrs,
    mkFn "_aApplyRdw2" LLType.intTy [dstringTy, rt_dg2] NoAttrs,
    -- size_t _d_array_cast_len(size_t len, size_t elemsz, size_t newelemsz)
    mkFn "_d_array_cast_len" LLType.sizeTy
      [LLType.sizeTy, LLType.sizeTy, LLType.sizeTy] Attr_ReadNone,
    -- Object _d_toObject(void* p)
    mkFn "_d_toObject" LLType.objectTy [voidPtrTy] Attr_ReadOnly_NoUnwind,
    -- Object _d_interface_cast(void* p, ClassInfo c)
    mkFn "_d_interface_cast" LLType.objectTy [voidPtrTy, LLType.classInfoTy]
      Attr_ReadOnly_NoUnwind,
    -- Object _d_dynamic_cast(Object o, ClassInfo c)
    mkFn "_d_dynamic_cast" LLType.objectTy [LLType.objectTy, LLType.classInfoTy]
      Attr_ReadOnly_NoUnwind,
    -- char[] _adReverseChar(char[] a) / _adSortChar
    mkFn "_adReverseChar" stringTy [stringTy] NoAttrs,
    mkFn "_adSortChar" stringTy [stringTy] NoAttrs,
    -- wchar[] _adReverseWchar(wchar[] a) / _adSortWchar
    mkFn "_adReverseWchar" wstringTy [wstringTy] NoAttrs,
    mkFn "_adSortWchar" wstringTy [wstringTy] NoAttrs,
    -- void[] _adReverse(void[] a, size_t szelem)
    mkFn "_adReverse" (rt_array LLType.byteTy)
      [rt_array LLType.byteTy, LLType.sizeTy] Attr_NoUnwind,
    -- void[] _adDupT(TypeInfo ti, void[] a)
    mkFn "_adDupT" (rt_array LLType.byteTy)
      [LLType.typeInfoTy, rt_array LLType.byteTy] NoAttrs,
    -- int _adEq/_adCmp(void[] a1, void[] a2, TypeInfo ti)
    mkFn "_adEq" LLType.intTy
      [rt_array LLType.byteTy, rt_array LLType.byteTy, LLType.typeInfoTy] Attr_ReadOnly,
    mkFn "_adCmp" LLType.intTy
      [rt_array LLType.byteTy, rt_array LLType.byteTy, LLType.typeInfoTy] Attr_ReadOnly,
    -- int _adCmpChar(void[] a1, void[] a2)
    mkFn "_adCmpChar" LLType.intTy
      [rt_array LLType.byteTy, rt_array LLType.byteTy] Attr_ReadOnly_NoUnwind,
    -- void[] _adSort(void[] a, TypeInfo ti)
    mkFn "_adSort" (rt_array LLType.byteTy)
      [rt_array LLType.byteTy, LLType.typeInfoTy] NoAttrs,
    -- size_t _aaLen(AA aa)
    mkFn "_aaLen" LLType.sizeTy [aaTy] Attr_ReadOnly_NoUnwind_1_NoCapture,
    -- void* _aaGet(AA* aa, TypeInfo keyti, size_t valuesize, void* pkey)
    mkFn "_aaGet" voidPtrTy
      [aaTy, LLType.typeInfoTy, LLType.sizeTy, voidPtrTy] Attr_1_4_NoCapture,
    -- void* _aaIn(AA aa, TypeInfo keyti, void* pkey)
    mkFn "_aaIn" voidPtrTy
      [aaTy, LLType.typeInfoTy, voidPtrTy] Attr_ReadOnly_1_3_NoCapture,
    -- void _aaDel(AA aa, TypeInfo keyti, void* pkey)
    mkFn "_aaDel" LLType.voidTy [aaTy, LLType.typeInfoTy, voidPtrTy] Attr_1_3_NoCapture,
    -- void[] _aaValues(AA aa, size_t keysize, size_t valuesize)
    mkFn "_aaValues" (rt_array LLType.byteTy)
      [aaTy, LLType.sizeTy, LLType.sizeTy] Attr_NoAlias_1_NoCapture,
    -- void* _aaRehash(AA* paa, TypeInfo keyti)
    mkFn "_aaRehash" voidPtrTy [aaTy, LLType.typeInfoTy] NoAttrs,
    -- void[] _aaKeys(AA aa, size_t keysize)
    mkFn "_aaKeys" (rt_array LLType.byteTy) [aaTy, LLType.sizeTy] Attr_NoAlias_1_NoCapture,
    -- int _aaApply(AA aa, size_t keysize, dg_t dg)
    mkFn "_aaApply" LLType.intTy [aaTy, LLType.sizeTy, rt_dg1] Attr_1_NoCapture,
    -- int _aaApply2(AA aa, size_t keysize, dg2_t dg)
    mkFn "_aaApply2" LLType.intTy [aaTy, LLType.sizeTy, rt_dg2] Attr_1_NoCapture,
    -- int _aaEq(AA aa, AA ab, TypeInfo_AssociativeArray ti)
    mkFn "_aaEq" LLType.intTy [aaTy, aaTy, LLType.typeInfoTy] Attr_1_2_NoCapture,
    -- void _moduleCtor() / _moduleDtor()
    mkFn "_moduleCtor" LLType.voidTy [] NoAttrs,
    mkFn "_moduleDtor" LLType.voidTy [] NoAttrs,
    -- void _d_throw_exception(Object e)
    mkFn "_d_throw_exception" LLType.voidTy [LLType.objectTy] NoAttrs,
    -- int _d_switch_string(char[][] table, char[] ca)
    mkFn "_d_switch_string" LLType.intTy [rt_array stringTy, stringTy] Attr_ReadOnly,
    mkFn "_d_switch_ustring" LLType.intTy [rt_array wstringTy, wstringTy] Attr_ReadOnly,
    mkFn "_d_switch_dstring" LLType.intTy [rt_array dstringTy, dstringTy] Attr_ReadOnly,
    -- void _d_criticalenter/_d_criticalexit(D_CRITICAL_SECTION *dcs)
    mkFn "_d_criticalenter" LLType.voidTy [rt_ptr LLType.mutexTy] NoAttrs,
    mkFn "_d_criticalexit" LLType.voidTy [rt_ptr LLType.mutexTy] NoAttrs,
    -- void _d_monitorenter/_d_monitorexit(Object h)
    mkFn "_d_monitorenter" LLType.voidTy [LLType.objectTy] Attr_1_NoCapture,
    mkFn "_d_monitorexit" LLType.voidTy [LLType.objectTy] Attr_1_NoCapture,
    -- int _d_eh_personality(int ver, int actions, ulong eh_class, ptr eh_info, ptr context)
    mkFn "_d_eh_personality" LLType.intTy
      [LLType.intTy, LLType.intTy, LLType.longTy, voidPtrTy, voidPtrTy] NoAttrs,
    -- void _d_eh_resume_unwind(ptr exc_struct)
    mkFn "_d_eh_resume_unwind" LLType.voidTy [voidPtrTy] NoAttrs,
    -- void _d_invariant(Object o)
    mkFn "_d_invariant" LLType.voidTy [LLType.objectTy] NoAttrs] }

/-- `LLVM_D_InitRuntime`: build the runtime module if it is absent
(the `bool` it returns is always `true`; the state is the interesting part). -/
def LLVM_D_InitRuntime (s : RTState) : RTState :=
  match s.M with
  | some _ => s
  | none => { s with M := some (LLVM_D_BuildRuntimeModule s.cpuIsX86) }

/-- `LLVM_D_FreeRuntime`: delete the runtime module if present. -/
def LLVM_D_FreeRuntime (s : RTState) : RTState :=
  match s.M with
  | some _ => { s with M := none }
  | none => s

/-- The tail of `LLVM_D_GetRuntimeFunction` once the runtime module `m` is
available: the lookup in the target, then the catalogue lookup (`assert(0)`
on a miss — the internal `RuntimeSymbolMissing` fault), then
`getOrInsertFunction` followed by `setAttributes` copying the canonical
attribute list. -/
def getRuntimeFunctionBody (s : RTState) (m : LLModule) (target : LLModule)
    (name : String) : Except Fatal (RTState × LLModule × RTFunction) :=
  match target.getFunction name with
  | some fn => .ok (s, target, fn)
  | none =>
    match m.getFunction name with
    | none => .error .RuntimeSymbolMissing
    | some fn =>
      let resfn : RTFunction := { name := name, fty := fn.fty, attrs := fn.attrs }
      .ok (s, { target with funcs := target.funcs ++ [resfn] }, resfn)

/-- `LLVM_D_GetRuntimeFunction(target, name)`, the registry's
`fetchFunction`.  Order of the source: the `noruntime` policy check first,
then build-on-demand of the runtime module (guarded by
`assert(!runtime_failed)`), then the body above. -/
def LLVM_D_GetRuntimeFunction (s : RTState) (target : LLModule) (name : String) :
    Except Fatal (RTState × LLModule × RTFunction) :=
  if s.noruntime then .error .PolicyViolation
  else
    match s.M with
    | none =>
      if s.runtime_failed then .error (.AssertFail "!runtime_failed")
      else
        let m := LLVM_D_BuildRuntimeModule s.cpuIsX86
        getRuntimeFunctionBody { s with M := some m } m target name
    | some m => getRuntimeFunctionBody s m target name

/-- The tail of `LLVM_D_GetRuntimeGlobal` once the runtime module `m` is
available: the runtime-module lookup (`error(...); fatal()` on a miss), then
a fresh external global in the target with the element type, constness and
linkage copied — never an alias. -/
def getRuntimeGlobalBody (s : RTState) (m : LLModule) (target : LLModule)
    (name : String) : Except Fatal (RTState × LLModule × RTGlobal) :=
  match m.getNamedGlobal name with
  | none => .error .RuntimeSymbolMissing
  | some g =>
    let ng : RTGlobal :=
      { name := g.name, elemTy := g.elemTy, isConst := g.isConst, linkage := g.linkage }
    .ok (s, { target with globals := target.globals ++ [ng] }, ng)

/-- `LLVM_D_GetRuntimeGlobal(target, name)`, the registry's `fetchGlobal`.
Order of the source: the lookup in the target first, then the `noruntime`
policy check, then build-on-demand, then the body above. -/
def LLVM_D_GetRuntimeGlobal (s : RTState) (target : LLModule) (name : String) :
    Except Fatal (RTState × LLModule × RTGlobal) :=
  match target.getNamedGlobal name with
  | some gv => .ok (s, target, gv)
  | none =>
    if s.noruntime then .error .PolicyViolation
    else
      match s.M with
      | none =>
        if s.runtime_failed then .error (.AssertFail "!runtime_failed")
        else
          let m := LLVM_D_BuildRuntimeModule s.cpuIsX86
          getRuntimeGlobalBody { s with M := some m } m target name
      | some m => getRuntimeGlobalBody s m target name

/-! ## The Type Descriptor Canonicalizer (`src/gen/typinf.c`)

The front end's type graph (`mtype.h`) is not part of this repository
snapshot, so the `Type` node and the handful of front-end operations the
canonicalizer calls (`merge`, `toBasetype`, `arrayOf`, `isTypeBasic`,
declaration mangling) are modelled from the spec, as noted on each
definition.  Everything in `typinf.c` itself is embedded from the source. -/

/-- Modelled from the spec: the basic (`TypeBasic`) kinds — a representative
set of the numeric/character/void kinds; `builtinTypeInfo` is uniform over
them, which is all this layer inspects. -/
inductive BasicKind where
  | tvoid
  | tbool
  | tint8
  | tint32
  | tint64
  | tfloat32
  | tfloat64
  | tchar
deriving DecidableEq

/-- Modelled from the spec: a front-end `Type` node, identified by its
structure.  The front end merges structurally identical type expressions
into one node, so in this embedding a type node is its structural value.
Named aggregates (struct, class, enum, function, delegate, tuple, typedef)
carry a numeric identity standing for the declared symbol. -/
inductive Ty where
  | basic (b : BasicKind)
  | pointer (next : Ty)
  | darray (next : Ty)
  | sarray (next : Ty) (dim : Nat)
  | aarray (next : Ty) (index : Ty)
  | tstruct (id : Nat)
  | tclass (id : Nat) (isInterface : Bool)
  | tenum (id : Nat) (base : Ty)
  | tfunction (id : Nat)
  | tdelegate (id : Nat)
  | ttuple (id : Nat)
  | ttypedefNode (id : Nat) (base : Ty)
deriving DecidableEq

/-- The `ty` tag of a type node (`TY` in the front end), the index into the
fixed-size `internalTI` cache. -/
inductive TyTag where
  | Tbasic (b : BasicKind)
  | Tpointer
  | Tarray
  | Tsarray
  | Taarray
  | Tstruct
  | Tclass
  | Tenum
  | Tfunction
  | Tdelegate
  | Ttuple
  | TtypedefTag
deriving DecidableEq

/-- `t->ty`. -/
def tyTag : Ty → TyTag
  | .basic b => .Tbasic b
  | .pointer _ => .Tpointer
  | .darray _ => .Tarray
  | .sarray _ _ => .Tsarray
  | .aarray _ _ => .Taarray
  | .tstruct _ => .Tstruct
  | .tclass _ _ => .Tclass
  | .tenum _ _ => .Tenum
  | .tfunction _ => .Tfunction
  | .tdelegate _ => .Tdelegate
  | .ttuple _ => .Ttuple
  | .ttypedefNode _ _ => .TtypedefTag

/-- Modelled from the spec: `Type::toBasetype` reduces a type to its
underlying representation — enums to their member type, typedefs to the
type they name; every other node is already its own basetype. -/
def toBasetype : Ty → Ty
  | .tenum _ b => toBasetype b
  | .ttypedefNode _ b => toBasetype b
  | t => t

/-- Modelled from the spec: `Type::merge` interns types by structural
identity, so structurally identical type expressions yield the same merged
node.  In this structural embedding a type already is its structural value,
so `merge` is the identity map; structural identity of two written types
`t1 == t2` is propositional equality `merge t1 = merge t2`. -/
def merge (t : Ty) : Ty := t

/-- Modelled from the spec: `Type::isTypeBasic()` is non-null exactly on the
basic kinds. -/
def isTypeBasic : Ty → Bool
  | .basic _ => true
  | _ => false

/-- `builtinTypeInfo`: the dispatch of `Type::builtinTypeInfo` (0),
`TypeBasic::builtinTypeInfo` (1) and `TypeDArray::builtinTypeInfo`
(`next->isTypeBasic() != NULL`). -/
def builtinTypeInfo : Ty → Bool
  | .basic _ => true
  | .darray n => isTypeBasic n
  | _ => false

/-- The dynamic kinds of `TypeInfoDeclaration`: the base class (also used
with `internal = 1` by `getInternalTypeInfo`) and the twelve subclasses. -/
inductive TIKind where
  | baseK
  | typedefK
  | pointerK
  | arrayK
  | staticArrayK
  | assocArrayK
  | structK
  | classK
  | interfaceK
  | enumK
  | functionK
  | delegateK
  | tupleK
deriving DecidableEq

/-- The virtual dispatch of `Type::getTypeInfoDeclaration` and its
overrides: which `TypeInfoDeclaration` subclass `new ...Declaration(this)`
constructs for each type kind (`TypeClass` picks the interface variant when
`sym->isInterfaceDeclaration()`). -/
def getTypeInfoDeclKind : Ty → TIKind
  | .basic _ => .baseK
  | .pointer _ => .pointerK
  | .darray _ => .arrayK
  | .sarray _ _ => .staticArrayK
  | .aarray _ _ => .assocArrayK
  | .tstruct _ => .structK
  | .tclass _ iface => if iface then .interfaceK else .classK
  | .tenum _ _ => .enumK
  | .tfunction _ => .functionK
  | .tdelegate _ => .delegateK
  | .ttuple _ => .tupleK
  | .ttypedefNode _ _ => .typedefK

/-- Modelled from the spec: the per-type mangled name — the deterministic
runtime-library symbol name derived from the type's canonical structural
encoding, produced by the front end's declaration mangling.  Any concrete
deterministic structural encoding serves; this one is injective on `Ty`. -/
def tyEncode : Ty → String
  | .basic .tvoid => "v"
  | .basic .tbool => "b"
  | .basic .tint8 => "g"
  | .basic .tint32 => "i"
  | .basic .tint64 => "l"
  | .basic .tfloat32 => "f"
  | .basic .tfloat64 => "d"
  | .basic .tchar => "a"
  | .pointer n => "P" ++ tyEncode n
  | .darray n => "A" ++ tyEncode n
  | .sarray n d => "G" ++ toString d ++ "_" ++ tyEncode n
  | .aarray n i => "H" ++ tyEncode i ++ tyEncode n
  | .tstruct k => "S" ++ toString k ++ "_"
  | .tclass k iface => (if iface then "I" else "C") ++ toString k ++ "_"
  | .tenum k b => "E" ++ toString k ++ "_" ++ tyEncode b
  | .tfunction k => "F" ++ toString k ++ "_"
  | .tdelegate k => "D" ++ toString k ++ "_"
  | .ttuple k => "T" ++ toString k ++ "_"
  | .ttypedefNode k b => "Y" ++ toString k ++ "_" ++ tyEncode b

/-- Modelled from the spec: `TypeInfoDeclaration::mangle()`, the symbol name
under which the runtime library provides the descriptor instance. -/
def mangle (t : Ty) : String := "_D_typeinfo_" ++ tyEncode t

/-- The allocation-time data of one `TypeInfoDeclaration` object: the type
it describes (`tinfo`), the `internal` constructor argument, and its dynamic
kind. -/
structure TIDecl where
  tinfo : Ty
  internal : Bool
  kind : TIKind
deriving DecidableEq

/-- A `VarExp` wrapping a `TypeInfoDeclaration`, as `getTypeInfo` /
`getInternalTypeInfo` return it (the expression's type is set to the
declaration's own type to avoid a redundant dereference — not observable
here).  `var` is the identity of the wrapped declaration object. -/
structure VarExpr where
  var : Nat
deriving DecidableEq

/-- The whole-session state the canonicalizer mutates: the registry state
`rt` and the active codegen module `mod` (`gIR->module`), the allocator for
declaration identities, each merged type's `vtinfo` slot (an association
from merged type to its attached declaration), the `static
TypeInfoDeclaration* internalTI[TMAX]` cache, the allocation data of every
declaration, the `llvmTouched` latch set, the resolved `llvmValue` of each
emitted declaration, and each module's `members` list (pairs of module
identity and pushed declaration). -/
structure GState where
  rt : RTState
  mod : LLModule
  nextId : Nat
  vtinfo : List (Ty × Nat)
  internalTI : List (TyTag × Nat)
  declData : List (Nat × TIDecl)
  touched : List Nat
  llvmValues : List (Nat × RTGlobal)
  members : List (Nat × Nat)
deriving DecidableEq

/-- Association-list lookup (the maps above are small association lists). -/
def assocFind {α β : Type} [DecidableEq α] : List (α × β) → α → Option β
  | [], _ => none
  | (k, v) :: rest, a => if k = a then some v else assocFind rest a

/-- `TypeInfoDeclaration::toObjFile()` (the active one in the MAGIC PLACE
section): return at once when the `llvmTouched` latch is set; otherwise set
it, resolve `llvmValue = LLVM_D_GetRuntimeGlobal(gIR->module, mangle())`
and record it (the `assert(llvmValue)` cannot fire — the fetch is fatal on
failure). -/
def toObjFile (g : GState) (d : Nat) : Except Fatal GState :=
  if g.touched.contains d then .ok g
  else
    let g1 := { g with touched := d :: g.touched }
    match assocFind g1.declData d with
    | none => .error (.AssertFail "declaration object")
    | some dd =>
      match LLVM_D_GetRuntimeGlobal g1.rt g1.mod (mangle dd.tinfo) with
      | .error e => .error e
      | .ok (rt2, mod2, gv) =>
        .ok { g1 with rt := rt2, mod := mod2, llvmValues := (d, gv) :: g1.llvmValues }

/-- `Type::getTypeInfo(sc)`, the spec's `exactDescriptorOf`: re-merge, then
if the merged type has no `vtinfo` yet, construct the kind-dispatched
declaration and attach it; for a non-builtin descriptor either push it onto
the importing module's `members` (semantic pass, `sc != NULL`, where `sc`
here stands for `sc->module->importedFrom`) or emit it on the spot via
`toObjFile` (codegen pass); finally return a `VarExp` of the attached
declaration. -/
def getTypeInfo (sc : Option Nat) (t0 : Ty) (g : GState) :
    Except Fatal (VarExpr × GState) :=
  let t := merge t0
  match assocFind g.vtinfo t with
  | some d => .ok ({ var := d }, g)
  | none =>
    let d := g.nextId
    let g1 := { g with
      nextId := d + 1,
      vtinfo := (t, d) :: g.vtinfo,
      declData := (d, { tinfo := t, internal := false, kind := getTypeInfoDeclKind t })
        :: g.declData }
    if builtinTypeInfo t then .ok ({ var := d }, g1)
    else
      match sc with
      | some m => .ok ({ var := d }, { g1 with members := (m, d) :: g1.members })
      | none =>
        match toObjFile g1 d with
        | .error e => .error e
        | .ok g2 => .ok ({ var := d }, g2)

/-- The `Linternal` tail of `Type::getInternalTypeInfo`: fetch or create the
per-tag shared placeholder (`new TypeInfoDeclaration(t, 1)`), memoized in
`internalTI[t->ty]`, and wrap it in a `VarExp`. -/
def getInternalTI (t : Ty) (g : GState) : VarExpr × GState :=
  match assocFind g.internalTI (tyTag t) with
  | some d => ({ var := d }, g)
  | none =>
    let d := g.nextId
    ({ var := d },
     { g with
        nextId := d + 1,
        internalTI := (tyTag t, d) :: g.internalTI,
        declData := (d, { tinfo := t, internal := true, kind := .baseK }) :: g.declData })

/-- `Type::getInternalTypeInfo(sc)`, the spec's `internalDescriptorOf`:
reduce to the basetype, then the source's switch — a static array becomes
the dynamic array of its element and falls through to `getTypeInfo`; an
interface-typed class falls through; a dynamic array falls through unless
its element's tag is `Tclass`; any other class, array-of-class, function,
delegate or pointer takes the shared `Linternal` placeholder; everything
else falls through to `getTypeInfo`. -/
def getInternalTypeInfo (sc : Option Nat) (t0 : Ty) (g : GState) :
    Except Fatal (VarExpr × GState) :=
  let t := toBasetype t0
  match t with
  | .sarray n _ => getTypeInfo sc (Ty.darray n) g
  | .tclass _ iface =>
    if iface then getTypeInfo sc t g
    else .ok (getInternalTI t g)
  | .darray n =>
    if tyTag n = TyTag.Tclass then .ok (getInternalTI t g)
    else getTypeInfo sc t g
  | .tfunction _ => .ok (getInternalTI t g)
  | .tdelegate _ => .ok (getInternalTI t g)
  | .pointer _ => .ok (getInternalTI t g)
  | _ => getTypeInfo sc t g

/-- `createTypeInfoArray(sc, args, dim)`: stubbed to `assert(0)` in this
source. -/
def createTypeInfoArray (sc : Option Nat) (args : List VarExpr) (dim : Nat) :
    Except Fatal VarExpr :=
  .error (.AssertFail "0")

/-- The active `TypeInfo*Declaration::toDt(dt_t **pdt)` overrides: every one
is stubbed to `assert(0 && "...")` naming its class.  The dispatch is over
the declaration's dynamic kind; `pdt` is the data-table accumulator the
stubs never touch. -/
def toDt (k : TIKind) (pdt : List Nat) : Except Fatal (List Nat) :=
  match k with
  | .baseK => .error (.AssertFail "TypeInfoDeclaration")
  | .typedefK => .error (.AssertFail "TypeInfoTypedefDeclaration")
  | .enumK => .error (.AssertFail "TypeInfoEnumDeclaration")
  | .pointerK => .error (.AssertFail "TypeInfoPointerDeclaration")
  | .arrayK => .error (.AssertFail "TypeInfoArrayDeclaration")
  | .staticArrayK => .error (.AssertFail "TypeInfoStaticArrayDeclaration")
  | .assocArrayK => .error (.AssertFail "TypeInfoAssociativeArrayDeclaration")
  | .functionK => .error (.AssertFail "TypeInfoFunctionDeclaration")
  | .delegateK => .error (.AssertFail "TypeInfoDelegateDeclaration")
  | .structK => .error (.AssertFail "TypeInfoStructDeclaration")
  | .classK => .error (.AssertFail "TypeInfoClassDeclaration")
  | .interfaceK => .error (.AssertFail "TypeInfoInterfaceDeclaration")
  | .tupleK => .error (.AssertFail "TypeInfoTupleDeclaration")

/-! ## Concrete session states and helper observers used by the theorems -/

/-- A fresh session: no runtime module yet, policy permitting runtime calls,
x86 target, empty codegen module, no descriptors allocated. -/
def initG : GState :=
  { rt := { M := none, runtime_failed := false, noruntime := false, cpuIsX86 := true },
    mod := { funcs := [], globals := [] },
    nextId := 0, vtinfo := [], internalTI := [], declData := [],
    touched := [], llvmValues := [], members := [] }

/-- The attribute list the catalogue records for a routine name. -/
def attrsOf (m : LLModule) (n : String) : Option AttrList :=
  (m.getFunction n).map (fun f => f.attrs)

/-- How many function declarations of a module carry a given name. -/
def countName (l : List RTFunction) (n : String) : Nat :=
  (l.filter (fun f => f.name = n)).length

/-- Well-formed canonicalizer state: every allocated identity is below the
allocator, and the exact-descriptor map and the internal-placeholder cache
hold disjoint identities.  (Holds of `initG` and is preserved by the
operations; it rules out aliasing between `vtinfo` descriptors and the
shared placeholders.) -/
def WFids (g : GState) : Prop :=
  (∀ p ∈ g.vtinfo, p.2 < g.nextId) ∧
  (∀ p ∈ g.internalTI, p.2 < g.nextId) ∧
  (∀ p ∈ g.vtinfo, ∀ q ∈ g.internalTI, p.2 ≠ q.2)

/-- The `-noruntime` session used by the policy-gate scenarios. -/
def sNoRM : RTState := { M := none, runtime_failed := false, noruntime := true, cpuIsX86 := true }

/-- A session with the policy permitting runtime calls and no module built. -/
def sPermit : RTState := { M := none, runtime_failed := false, noruntime := false, cpuIsX86 := true }

/-- An empty target module. -/
def emptyModule : LLModule := { funcs := [], globals := [] }

/-- A global variable declaration named `x`, present in `tGlob`. -/
def gvX : RTGlobal := { name := "x", elemTy := LLType.intTy, isConst := false, linkage := .External }

/-- A target module already containing the global `x`. -/
def tGlob : LLModule := { funcs := [], globals := [gvX] }

/-- A function declaration named `f`, present in `tFn`. -/
def fnF : RTFunction := mkFn "f" LLType.voidTy [] NoAttrs

/-- A target module already containing the function `f`. -/
def tFn : LLModule := { funcs := [fnF], globals := [] }

/-- The catalogue's `_aaLen` entry. -/
def aaLenFn : RTFunction := mkFn "_aaLen" LLType.sizeTy [aaTy] Attr_ReadOnly_NoUnwind_1_NoCapture

/-- The catalogue's `_d_newarrayT` entry. -/
def newarrayTFn : RTFunction :=
  mkFn "_d_newarrayT" voidPtrTy [LLType.typeInfoTy, LLType.sizeTy] Attr_NoAlias

/-- The state after `getTypeInfo` first attaches a descriptor to `int32`
from `initG` (a builtin descriptor: no members push, no emission). -/
def c1State1 : GState :=
  { initG with
    nextId := 1,
    vtinfo := [(Ty.basic BasicKind.tint32, 0)],
    declData := [(0, { tinfo := Ty.basic BasicKind.tint32, internal := false,
                       kind := TIKind.baseK })] }

/-- The state after `getInternalTypeInfo` of a static array of `int32` from
`initG`: the descriptor of the collapsed dynamic array `int32[]` (builtin). -/
def c5State1 : GState :=
  { initG with
    nextId := 1,
    vtinfo := [(Ty.darray (Ty.basic BasicKind.tint32), 0)],
    declData := [(0, { tinfo := Ty.darray (Ty.basic BasicKind.tint32), internal := false,
                       kind := TIKind.arrayK })] }

/-- The state after `getInternalTypeInfo` of function type 0 from `initG`:
the shared function-kind placeholder is allocated and cached. -/
def c5StateFn : GState :=
  { initG with
    nextId := 1,
    internalTI := [(TyTag.Tfunction, 0)],
    declData := [(0, { tinfo := Ty.tfunction 0, internal := true, kind := TIKind.baseK })] }

/-- The state after `getInternalTypeInfo` of interface 0 from `initG` in the
semantic pass (`sc` = module 0): an exact descriptor, pushed onto module 0's
members. -/
def c5StateIface : GState :=
  { initG with
    nextId := 1,
    vtinfo := [(Ty.tclass 0 true, 0)],
    declData := [(0, { tinfo := Ty.tclass 0 true, internal := false,
                       kind := TIKind.interfaceK })],
    members := [(0, 0)] }

/-- The state after `getInternalTypeInfo` of a static array of class 0 from
`initG` (semantic pass): the exact descriptor of `C[]` is attached — the
static-array collapse lands in `getTypeInfo`, not in the placeholder cache. -/
def c5cxState1 : GState :=
  { initG with
    nextId := 1,
    vtinfo := [(Ty.darray (Ty.tclass 0 false), 0)],
    declData := [(0, { tinfo := Ty.darray (Ty.tclass 0 false), internal := false,
                       kind := TIKind.arrayK })],
    members := [(0, 0)] }

/-- The state after additionally requesting `getInternalTypeInfo` of the
dynamic array of class 0: a *second*, distinct descriptor — the shared
array-kind placeholder. -/
def c5cxState2 : GState :=
  { c5cxState1 with
    nextId := 2,
    internalTI := [(TyTag.Tarray, 1)],
    declData := (1, { tinfo := Ty.darray (Ty.tclass 0 false), internal := true,
                      kind := TIKind.baseK }) :: c5cxState1.declData }

/-- The runtime-library descriptor instance for `int32` under its mangled
name, pre-existing in the emission target of the C6 scenario. -/
def c6Gv : RTGlobal :=
  { name := mangle (Ty.basic BasicKind.tint32), elemTy := LLType.intTy,
    isConst := true, linkage := .External }

/-- A codegen session whose target module already declares the `int32`
descriptor instance, with declaration 0 attached to `int32` and not yet
emitted. -/
def c6G0 : GState :=
  { initG with
    mod := { funcs := [], globals := [c6Gv] },
    nextId := 1,
    declData := [(0, { tinfo := Ty.basic BasicKind.tint32, internal := false,
                       kind := TIKind.baseK })] }

/-- `c6G0` after the first emission of declaration 0: latch set, backing
storage resolved to `c6Gv`. -/
def c6G1 : GState :=
  { c6G0 with touched := [0], llvmValues := [(0, c6Gv)] }

/-! ## Helper lemmas -/

theorem assocFind_mem {α β : Type} [DecidableEq α] :
    ∀ {l : List (α × β)} {k : α} {v : β}, assocFind l k = some v → (k, v) ∈ l
  | [], _, _, h => by simp [assocFind] at h
  | (a, b) :: tl, k, v, h => by
    unfold assocFind at h
    split at h
    · next heq =>
      cases h
      subst heq
      exact List.mem_cons_self _ _
    · exact List.mem_cons_of_mem _ (assocFind_mem h)

theorem toObjFile_frame {g g2 : GState} {d : Nat} (h : toObjFile g d = .ok g2) :
    g2.vtinfo = g.vtinfo ∧ g2.internalTI = g.internalTI ∧ g2.nextId = g.nextId ∧
    g2.declData = g.declData := by
  simp only [toObjFile] at h
  split at h
  · cases h; exact ⟨rfl, rfl, rfl, rfl⟩
  · split at h
    · cases h
    · split at h
      · cases h
      · cases h; exact ⟨rfl, rfl, rfl, rfl⟩

theorem getTypeInfo_hit (sc : Option Nat) {t0 : Ty} {g : GState} {d : Nat}
    (h : assocFind g.vtinfo (merge t0) = some d) :
    getTypeInfo sc t0 g = .ok ({ var := d }, g) := by
  simp only [getTypeInfo, h]

theorem getTypeInfo_post {sc : Option Nat} {t0 : Ty} {g : GState} {e : VarExpr} {g1 : GState}
    (h : getTypeInfo sc t0 g = .ok (e, g1)) :
    assocFind g1.vtinfo (merge t0) = some e.var ∧
    g1.internalTI = g.internalTI ∧
    (assocFind g.vtinfo (merge t0) = some e.var ∨ e.var = g.nextId) := by
  simp only [getTypeInfo] at h
  split at h
  · next d hf =>
    simp only [Except.ok.injEq, Prod.mk.injEq] at h
    obtain ⟨he, hg⟩ := h
    subst he
    subst hg
    exact ⟨hf, rfl, Or.inl hf⟩
  · next hf =>
    split at h
    · simp only [Except.ok.injEq, Prod.mk.injEq] at h
      obtain ⟨he, hg⟩ := h
      subst he
      subst hg
      exact ⟨by simp [assocFind], rfl, Or.inr rfl⟩
    · split at h
      · simp only [Except.ok.injEq, Prod.mk.injEq] at h
        obtain ⟨he, hg⟩ := h
        subst he
        subst hg
        exact ⟨by simp [assocFind], rfl, Or.inr rfl⟩
      · split at h
        · cases h
        · next g2 hto =>
          simp only [Except.ok.injEq, Prod.mk.injEq] at h
          obtain ⟨he, hg⟩ := h
          subst he
          subst hg
          obtain ⟨hv, hi, _, _⟩ := toObjFile_frame hto
          exact ⟨by rw [hv]; simp [assocFind], hi, Or.inr rfl⟩

theorem getInternalTI_post {t : Ty} {g : GState} {e : VarExpr} {g1 : GState}
    (h : getInternalTI t g = (e, g1)) :
    assocFind g1.internalTI (tyTag t) = some e.var := by
  simp only [getInternalTI] at h
  split at h
  · next d hf =>
    simp only [Prod.mk.injEq] at h
    obtain ⟨he, hg⟩ := h
    subst he
    subst hg
    exact hf
  · simp only [Prod.mk.injEq] at h
    obtain ⟨he, hg⟩ := h
    subst he
    subst hg
    simp [assocFind]

theorem getInternalTI_hit {t : Ty} {g : GState} {d : Nat}
    (h : assocFind g.internalTI (tyTag t) = some d) :
    getInternalTI t g = ({ var := d }, g) := by
  simp only [getInternalTI, h]

theorem initRuntime_noruntime (s : RTState) :
    (LLVM_D_InitRuntime s).noruntime = s.noruntime := by
  unfold LLVM_D_InitRuntime
  split <;> rfl

theorem initRuntime_eq_of_some {s : RTState} {m : LLModule} (hM : s.M = some m) :
    LLVM_D_InitRuntime s = s := by
  unfold LLVM_D_InitRuntime
  rw [hM]

theorem initRuntime_eq_of_none {s : RTState} (hM : s.M = none) :
    LLVM_D_InitRuntime s = { s with M := some (LLVM_D_BuildRuntimeModule s.cpuIsX86) } := by
  unfold LLVM_D_InitRuntime
  rw [hM]

theorem freeRuntime_eq_of_some {s : RTState} {m : LLModule} (hM : s.M = some m) :
    LLVM_D_FreeRuntime s = { s with M := none } := by
  unfold LLVM_D_FreeRuntime
  rw [hM]

theorem freeRuntime_eq_of_none {s : RTState} (hM : s.M = none) :
    LLVM_D_FreeRuntime s = s := by
  unfold LLVM_D_FreeRuntime
  rw [hM]

theorem getRuntimeFunction_found_built {s : RTState} {t : LLModule} {n : String}
    {m : LLModule} {fn : RTFunction}
    (hnr : s.noruntime = false) (hM : s.M = some m)
    (hfn : t.getFunction n = some fn) :
    LLVM_D_GetRuntimeFunction s t n = .ok (s, t, fn) := by
  unfold LLVM_D_GetRuntimeFunction
  rw [hnr, if_neg Bool.false_ne_true, hM]
  show getRuntimeFunctionBody s m t n = _
  unfold getRuntimeFunctionBody
  rw [hfn]

theorem getRuntimeFunction_insert {s : RTState} {t : LLModule} {n : String}
    {m : LLModule} {fn : RTFunction}
    (hnr : s.noruntime = false) (hrf : s.runtime_failed = false)
    (hM : s.M = some m ∨ (s.M = none ∧ m = LLVM_D_BuildRuntimeModule s.cpuIsX86))
    (hcat : m.getFunction n = some fn)
    (htgt : t.getFunction n = none) :
    LLVM_D_GetRuntimeFunction s t n =
      .ok (LLVM_D_InitRuntime s,
           { t with funcs := t.funcs ++ [{ name := n, fty := fn.fty, attrs := fn.attrs }] },
           { name := n, fty := fn.fty, attrs := fn.attrs }) := by
  unfold LLVM_D_GetRuntimeFunction
  rw [hnr, if_neg Bool.false_ne_true]
  rcases hM with hsome | ⟨hnone, hm⟩
  · rw [hsome, initRuntime_eq_of_some hsome]
    show getRuntimeFunctionBody s m t n = _
    unfold getRuntimeFunctionBody
    rw [htgt, hcat]
  · rw [hnone, initRuntime_eq_of_none hnone, hrf, if_neg Bool.false_ne_true]
    show getRuntimeFunctionBody _ (LLVM_D_BuildRuntimeModule s.cpuIsX86) t n = _
    unfold getRuntimeFunctionBody
    rw [← hm, htgt, hcat, hnr]

theorem getFunction_append_self {t : LLModule} {n : String}
    (htgt : t.getFunction n = none) (r : RTFunction) (hr : r.name = n) :
    LLModule.getFunction { t with funcs := t.funcs ++ [r] } n = some r := by
  unfold LLModule.getFunction at *
  rw [List.find?_append, htgt]
  simp [hr]

theorem countName_eq_zero {l : List RTFunction} {n : String}
    (h : l.find? (fun f => f.name = n) = none) : countName l n = 0 := by
  unfold countName
  rw [List.length_eq_zero, List.filter_eq_nil_iff]
  exact List.find?_eq_none.mp h

theorem countName_append_one {l : List RTFunction} {n : String}
    (h : l.find? (fun f => f.name = n) = none) (r : RTFunction) (hr : r.name = n) :
    countName (l ++ [r]) n = 1 := by
  unfold countName
  rw [List.filter_append]
  have hz : l.filter (fun f => f.name = n) = [] :=
    List.filter_eq_nil_iff.mpr (List.find?_eq_none.mp h)
  rw [hz]
  simp [hr]

/-! ## The claims -/

/-- C1: for all merged types `t1`, `t2` that are structurally identical
(`merge t1 = merge t2`), `exactDescriptorOf` (`Type::getTypeInfo`) returns
the same Descriptor instance: a successful first call leaves the Descriptor
attached to the merged type's `vtinfo` slot, and every later call for a
structurally identical type returns exactly that attached Descriptor with
the session state unchanged — no new Descriptor is constructed. -/
theorem C1_exactDescriptor_single_instance (sc sc' : Option Nat) (t1 t2 : Ty)
    (g g1 : GState) (e1 : VarExpr)
    (hm : merge t1 = merge t2)
    (h1 : getTypeInfo sc t1 g = .ok (e1, g1)) :
    assocFind g1.vtinfo (merge t1) = some e1.var ∧
    getTypeInfo sc' t2 g1 = .ok (e1, g1) := by
  obtain ⟨hf, -, -⟩ := getTypeInfo_post h1
  refine ⟨hf, ?_⟩
  have h2 := getTypeInfo_hit sc' (hm ▸ hf)
  cases e1
  exact h2

/-- Witness for C1: the descriptor of `int32`, attached by a first call from
the fresh session, is returned unchanged by a second call (in a different
scope). -/
theorem C1_witness :
    assocFind c1State1.vtinfo (merge (Ty.basic BasicKind.tint32)) = some 0 ∧
    getTypeInfo (some 1) (Ty.basic BasicKind.tint32) c1State1 = .ok (⟨0⟩, c1State1) := by
  have h1 : getTypeInfo (some 0) (Ty.basic BasicKind.tint32) initG = .ok (⟨0⟩, c1State1) := by
    decide
  exact C1_exactDescriptor_single_instance (some 0) (some 1) _ _ _ _ ⟨0⟩ rfl h1

/-- C2 counterexample: with `-noruntime` active, a `fetchGlobal` call for a
name already present among the target module's globals returns that global
instead of terminating with `PolicyViolation` — the claim's "every call to
fetchGlobal, regardless of the current contents of the target module" is
false. -/
theorem C2_counterexample :
    LLVM_D_GetRuntimeGlobal sNoRM tGlob "x" = .ok (sNoRM, tGlob, gvX) ∧
    LLVM_D_GetRuntimeGlobal sNoRM tGlob "x" ≠ .error Fatal.PolicyViolation := by
  exact ⟨by decide, by decide⟩

/-- C2 (amended): with `-noruntime` active, every `fetchFunction` call
terminates with a fatal `PolicyViolation` (the policy check is its first
step, so no mutation is performed); a `fetchGlobal` call terminates with
`PolicyViolation` exactly when no global of that name already exists in the
target module — when one exists it is returned with the policy flag never
consulted and the target unchanged. -/
theorem C2_policy_gate (s : RTState) (t : LLModule) (n : String)
    (h : s.noruntime = true) :
    LLVM_D_GetRuntimeFunction s t n = .error .PolicyViolation ∧
    (t.getNamedGlobal n = none → LLVM_D_GetRuntimeGlobal s t n = .error .PolicyViolation) ∧
    (∀ gv, t.getNamedGlobal n = some gv → LLVM_D_GetRuntimeGlobal s t n = .ok (s, t, gv)) := by
  refine ⟨?_, ?_, ?_⟩
  · unfold LLVM_D_GetRuntimeFunction
    rw [h, if_pos rfl]
  · intro hn
    unfold LLVM_D_GetRuntimeGlobal
    rw [hn]
    show (if s.noruntime = true then _ else _) = _
    rw [h, if_pos rfl]
  · intro gv hgv
    unfold LLVM_D_GetRuntimeGlobal
    rw [hgv]

/-- Witness for C2: both fetches fail on an empty target with the policy
off, and the pre-existing global `x` is handed back unchanged. -/
theorem C2_witness :
    LLVM_D_GetRuntimeFunction sNoRM emptyModule "_aaLen" = .error .PolicyViolation ∧
    LLVM_D_GetRuntimeGlobal sNoRM emptyModule "_aaLen" = .error .PolicyViolation ∧
    LLVM_D_GetRuntimeGlobal sNoRM tGlob "x" = .ok (sNoRM, tGlob, gvX) :=
  ⟨(C2_policy_gate sNoRM emptyModule "_aaLen" rfl).1,
   (C2_policy_gate sNoRM emptyModule "_aaLen" rfl).2.1 (by decide),
   (C2_policy_gate sNoRM tGlob "x" rfl).2.2 gvX (by decide)⟩

/-- C3 counterexample: a target module that already contains a declaration
named `f`, fetched with `-noruntime` active, terminates with
`PolicyViolation` instead of returning the existing declaration — the
policy check precedes the existing-declaration check, contradicting the
claim's "for every setting of the policy flag ... the existing-declaration
check is the first step, before the policy check". -/
theorem C3_counterexample :
    tFn.getFunction "f" = some fnF ∧
    LLVM_D_GetRuntimeFunction sNoRM tFn "f" = .error Fatal.PolicyViolation ∧
    LLVM_D_GetRuntimeFunction sNoRM tFn "f" ≠ .ok (sNoRM, tFn, fnF) := by
  exact ⟨by decide, by decide, by decide⟩

/-- C3 (amended): with the policy flag permitting runtime calls, for every
target module that already contains a declaration named `name`,
`fetchFunction` ensures the Runtime Module is built and then returns that
existing declaration unchanged — no attribute re-application, no failure,
and no lookup of `name` in the Runtime Module.  (The policy check comes
first — with `-noruntime` the call fails even then — and the Runtime Module
is built before the existing-declaration check.) -/
theorem C3_existing_declaration_authoritative (s : RTState) (t : LLModule)
    (n : String) (fn : RTFunction)
    (hnr : s.noruntime = false) (hrf : s.runtime_failed = false)
    (hfn : t.getFunction n = some fn) :
    LLVM_D_GetRuntimeFunction s t n = .ok (LLVM_D_InitRuntime s, t, fn) := by
  cases hM : s.M with
  | some m =>
    rw [initRuntime_eq_of_some hM]
    exact getRuntimeFunction_found_built hnr hM hfn
  | none =>
    rw [initRuntime_eq_of_none hM]
    unfold LLVM_D_GetRuntimeFunction
    rw [hnr, if_neg Bool.false_ne_true, hM, hrf, if_neg Bool.false_ne_true]
    show getRuntimeFunctionBody _ (LLVM_D_BuildRuntimeModule s.cpuIsX86) t n = _
    unfold getRuntimeFunctionBody
    rw [hfn]

/-- Witness for C3: the pre-existing `f` is returned unchanged while the
Runtime Module gets built. -/
theorem C3_witness :
    LLVM_D_GetRuntimeFunction sPermit tFn "f" = .ok (LLVM_D_InitRuntime sPermit, tFn, fnF) :=
  C3_existing_declaration_authoritative sPermit tFn "f" fnF rfl rfl (by decide)

/-- C4: the declaration `fetchFunction` inserts into a target module carries
exactly the canonical signature and attribute set recorded in the Runtime
Module for that name; and in the catalogue the new-array allocators
`_d_newarrayT/iT/vT` carry the non-aliasing return attribute (index 0),
`_d_array_init_mem` carries non-capturing on parameters 1 and 3, and
`_d_toObject` / `_d_interface_cast` / `_d_dynamic_cast` carry read-only plus
non-throwing (function-level attributes). -/
theorem C4_attribute_fidelity :
    (∀ (s : RTState) (t : LLModule) (n : String) (m : LLModule) (fn : RTFunction),
      s.noruntime = false → s.runtime_failed = false →
      (s.M = some m ∨ (s.M = none ∧ m = LLVM_D_BuildRuntimeModule s.cpuIsX86)) →
      m.getFunction n = some fn → t.getFunction n = none →
      LLVM_D_GetRuntimeFunction s t n =
        .ok (LLVM_D_InitRuntime s,
             { t with funcs := t.funcs ++ [{ name := n, fty := fn.fty, attrs := fn.attrs }] },
             { name := n, fty := fn.fty, attrs := fn.attrs })) ∧
    (∀ cpu : Bool,
      attrsOf (LLVM_D_BuildRuntimeModule cpu) "_d_newarrayT" = some Attr_NoAlias ∧
      attrsOf (LLVM_D_BuildRuntimeModule cpu) "_d_newarrayiT" = some Attr_NoAlias ∧
      attrsOf (LLVM_D_BuildRuntimeModule cpu) "_d_newarrayvT" = some Attr_NoAlias ∧
      attrsOf (LLVM_D_BuildRuntimeModule cpu) "_d_array_init_mem" = some Attr_1_3_NoCapture ∧
      attrsOf (LLVM_D_BuildRuntimeModule cpu) "_d_toObject" = some Attr_ReadOnly_NoUnwind ∧
      attrsOf (LLVM_D_BuildRuntimeModule cpu) "_d_interface_cast" = some Attr_ReadOnly_NoUnwind ∧
      attrsOf (LLVM_D_BuildRuntimeModule cpu) "_d_dynamic_cast" = some Attr_ReadOnly_NoUnwind) ∧
    (0, Attr.NoAlias) ∈ Attr_NoAlias ∧
    (1, Attr.NoCapture) ∈ Attr_1_3_NoCapture ∧
    (3, Attr.NoCapture) ∈ Attr_1_3_NoCapture ∧
    (funcAttrIdx, Attr.ReadOnly) ∈ Attr_ReadOnly_NoUnwind ∧
    (funcAttrIdx, Attr.NoUnwind) ∈ Attr_ReadOnly_NoUnwind := by
  refine ⟨fun s t n m fn hnr hrf hM hcat htgt =>
      getRuntimeFunction_insert hnr hrf hM hcat htgt,
    by decide, by decide, by decide, by decide, by decide, by decide⟩

/-- Witness for C4: fetching `_d_newarrayT` into an empty module inserts the
catalogue declaration, whose attribute list is the non-aliasing return. -/
theorem C4_witness :
    LLVM_D_GetRuntimeFunction sPermit emptyModule "_d_newarrayT" =
      .ok (LLVM_D_InitRuntime sPermit,
           { emptyModule with
              funcs := emptyModule.funcs ++
                [{ name := "_d_newarrayT", fty := newarrayTFn.fty, attrs := newarrayTFn.attrs }] },
           { name := "_d_newarrayT", fty := newarrayTFn.fty, attrs := newarrayTFn.attrs }) ∧
    attrsOf (LLVM_D_BuildRuntimeModule true) "_d_newarrayT" = some Attr_NoAlias :=
  ⟨C4_attribute_fidelity.1 sPermit emptyModule "_d_newarrayT"
      (LLVM_D_BuildRuntimeModule true) newarrayTFn rfl rfl (Or.inr ⟨rfl, rfl⟩)
      (by decide) (by decide),
   (C4_attribute_fidelity.2.1 true).1⟩

/-- C5 counterexample: for the class element type `C = class 0`,
`internalDescriptorOf(staticArrayOf C)` yields the exact descriptor of `C[]`
(descriptor 0) while `internalDescriptorOf(dynamicArrayOf C)` yields the
shared array-kind placeholder (descriptor 1) — two distinct Descriptor
instances, so "for every element type T" is false: the static-array
collapse re-dispatches through `getTypeInfo`, never through the placeholder
cache. -/
theorem C5_counterexample :
    getInternalTypeInfo (some 0) (Ty.sarray (Ty.tclass 0 false) 1) initG =
      .ok (⟨0⟩, c5cxState1) ∧
    getInternalTypeInfo (some 0) (Ty.darray (Ty.tclass 0 false)) c5cxState1 =
      .ok (⟨1⟩, c5cxState2) ∧
    (⟨0⟩ : VarExpr) ≠ ⟨1⟩ := by
  exact ⟨by decide, by decide, by decide⟩

/-- C5 (amended): (1) for every element type `T` whose tag is not `Tclass`
(i.e. not a class or interface type), `internalDescriptorOf(staticArrayOf T)`
and `internalDescriptorOf(dynamicArrayOf T)` yield the same Descriptor (for
class-element arrays the two sides differ — see the counterexample);
(2) any two function types yield the single shared function-kind placeholder,
created at most once and memoized; (3) for every interface type, in a
well-formed state the returned Descriptor is never one of the shared
kind placeholders held by the internal cache. -/
theorem C5_collapse_correct :
    (∀ (sc sc' : Option Nat) (T : Ty) (dim : Nat) (g g1 : GState) (e : VarExpr),
      tyTag T ≠ TyTag.Tclass →
      getInternalTypeInfo sc (Ty.sarray T dim) g = .ok (e, g1) →
      getInternalTypeInfo sc' (Ty.darray T) g1 = .ok (e, g1)) ∧
    (∀ (sc sc' : Option Nat) (a b : Nat) (g g1 : GState) (e : VarExpr),
      getInternalTypeInfo sc (Ty.tfunction a) g = .ok (e, g1) →
      getInternalTypeInfo sc' (Ty.tfunction b) g1 = .ok (e, g1)) ∧
    (∀ (sc : Option Nat) (c : Nat) (g g1 : GState) (e : VarExpr),
      WFids g →
      getInternalTypeInfo sc (Ty.tclass c true) g = .ok (e, g1) →
      ∀ q ∈ g1.internalTI, e.var ≠ q.2) := by
  refine ⟨?_, ?_, ?_⟩
  · intro sc sc' T dim g g1 e hT h1
    simp only [getInternalTypeInfo, toBasetype] at h1 ⊢
    rw [if_neg hT]
    obtain ⟨hf, -, -⟩ := getTypeInfo_post h1
    have h2 := getTypeInfo_hit sc' hf
    cases e
    exact h2
  · intro sc sc' a b g g1 e h1
    simp only [getInternalTypeInfo, toBasetype] at h1 ⊢
    simp only [Except.ok.injEq] at h1
    have hf := getInternalTI_post h1
    have h2 := getInternalTI_hit (t := Ty.tfunction b) (g := g1) hf
    rw [h2]
  · intro sc c g g1 e hwf h1
    simp only [getInternalTypeInfo, toBasetype, if_pos] at h1
    obtain ⟨-, hiti, hsrc⟩ := getTypeInfo_post h1
    intro q hq
    rw [hiti] at hq
    rcases hsrc with hin | hfresh
    · exact hwf.2.2 _ (assocFind_mem hin) q hq
    · have hlt := hwf.2.1 q hq
      omega

/-- Witness for C5: the three parts at concrete inputs — `int32` element
(collapse agrees), two distinct function types (one placeholder), and an
interface type from the well-formed fresh session. -/
theorem C5_witness :
    getInternalTypeInfo (some 0) (Ty.darray (Ty.basic BasicKind.tint32)) c5State1 =
      .ok (⟨0⟩, c5State1) ∧
    getInternalTypeInfo (some 0) (Ty.tfunction 1) c5StateFn = .ok (⟨0⟩, c5StateFn) ∧
    (∀ q ∈ c5StateIface.internalTI, (⟨0⟩ : VarExpr).var ≠ q.2) := by
  have h1 : getInternalTypeInfo (some 0) (Ty.sarray (Ty.basic BasicKind.tint32) 1) initG =
      .ok (⟨0⟩, c5State1) := by decide
  have h2 : getInternalTypeInfo (some 0) (Ty.tfunction 0) initG = .ok (⟨0⟩, c5StateFn) := by
    decide
  have h3 : getInternalTypeInfo (some 0) (Ty.tclass 0 true) initG =
      .ok (⟨0⟩, c5StateIface) := by decide
  have hwf : WFids initG := by
    refine ⟨?_, ?_, ?_⟩ <;> simp [initG]
  exact ⟨C5_collapse_correct.1 (some 0) (some 0) _ 1 initG c5State1 ⟨0⟩ (by decide) h1,
         C5_collapse_correct.2.1 (some 0) (some 0) 0 1 initG c5StateFn ⟨0⟩ h2,
         C5_collapse_correct.2.2 (some 0) 0 initG c5StateIface ⟨0⟩ hwf h3⟩

/-- C6: Descriptor emission is idempotent — a first `toObjFile` call on an
unemitted Descriptor sets the one-shot latch and resolves the backing
storage exactly once, as the external reference `fetchGlobal` returns for
the type's mangled name; and any call on an already-latched Descriptor
returns at once with no diagnostic, no mutation and no second reference. -/
theorem C6_emission_idempotent (g g1 : GState) (d : Nat) (dd : TIDecl)
    (hnt : g.touched.contains d = false)
    (hdd : assocFind g.declData d = some dd)
    (hok : toObjFile g d = .ok g1) :
    g1.touched.contains d = true ∧
    (∃ rt2 mod2 gv,
      LLVM_D_GetRuntimeGlobal g.rt g.mod (mangle dd.tinfo) = .ok (rt2, mod2, gv) ∧
      g1 = { g with touched := d :: g.touched, rt := rt2, mod := mod2,
                    llvmValues := (d, gv) :: g.llvmValues }) ∧
    toObjFile g1 d = .ok g1 := by
  simp only [toObjFile, hnt, Bool.false_eq_true, if_false, hdd] at hok
  rcases hG : LLVM_D_GetRuntimeGlobal g.rt g.mod (mangle dd.tinfo) with e | p
  · rw [hG] at hok
    simp at hok
  · obtain ⟨rt2, mod2, gv⟩ := p
    rw [hG] at hok
    simp only [Except.ok.injEq] at hok
    subst hok
    refine ⟨by simp, ⟨rt2, mod2, gv, rfl, rfl⟩, ?_⟩
    simp only [toObjFile]
    rw [if_pos (by simp)]

/-- Witness for C6: emitting the `int32` descriptor into a target that
already declares its runtime-library instance, then re-emitting it
(a no-op). -/
theorem C6_witness :
    c6G1.touched.contains 0 = true ∧
    (∃ rt2 mod2 gv,
      LLVM_D_GetRuntimeGlobal c6G0.rt c6G0.mod
          (mangle (({ tinfo := Ty.basic BasicKind.tint32, internal := false,
                      kind := TIKind.baseK } : TIDecl)).tinfo) = .ok (rt2, mod2, gv) ∧
      c6G1 = { c6G0 with touched := 0 :: c6G0.touched, rt := rt2, mod := mod2,
                         llvmValues := (0, gv) :: c6G0.llvmValues }) ∧
    toObjFile c6G1 0 = .ok c6G1 :=
  C6_emission_idempotent c6G0 c6G1 0
    { tinfo := Ty.basic BasicKind.tint32, internal := false, kind := TIKind.baseK }
    (by decide) (by decide) (by decide)

/-- C7: for every catalogued routine name `n` and target module without a
declaration of that name (policy permitting runtime calls), two successive
`fetchFunction` calls return the same declaration object — the first
inserts it, the second finds it in the target — and the target ends with
exactly one declaration named `n`. -/
theorem C7_single_declaration (s : RTState) (t : LLModule) (n : String)
    (m : LLModule) (fn : RTFunction)
    (hnr : s.noruntime = false) (hrf : s.runtime_failed = false)
    (hM : s.M = some m ∨ (s.M = none ∧ m = LLVM_D_BuildRuntimeModule s.cpuIsX86))
    (hcat : m.getFunction n = some fn)
    (htgt : t.getFunction n = none) :
    ∃ res : RTFunction,
      res.name = n ∧ res.fty = fn.fty ∧ res.attrs = fn.attrs ∧
      LLVM_D_GetRuntimeFunction s t n =
        .ok (LLVM_D_InitRuntime s, { t with funcs := t.funcs ++ [res] }, res) ∧
      LLVM_D_GetRuntimeFunction (LLVM_D_InitRuntime s)
          { t with funcs := t.funcs ++ [res] } n =
        .ok (LLVM_D_InitRuntime s, { t with funcs := t.funcs ++ [res] }, res) ∧
      countName (t.funcs ++ [res]) n = 1 := by
  refine ⟨{ name := n, fty := fn.fty, attrs := fn.attrs }, rfl, rfl, rfl,
    getRuntimeFunction_insert hnr hrf hM hcat htgt, ?_, ?_⟩
  · have hfound := getFunction_append_self htgt
      { name := n, fty := fn.fty, attrs := fn.attrs } rfl
    rcases hM with hsome | ⟨hnone, hm⟩
    · rw [initRuntime_eq_of_some hsome]
      exact getRuntimeFunction_found_built hnr hsome hfound
    · rw [initRuntime_eq_of_none hnone]
      exact getRuntimeFunction_found_built hnr rfl hfound
  · have h0 : t.funcs.find? (fun f => f.name = n) = none := htgt
    exact countName_append_one h0 _ rfl

/-- Witness for C7: two fetches of `_aaLen` into an empty target from a
fresh session. -/
theorem C7_witness :
    ∃ res : RTFunction,
      res.name = "_aaLen" ∧ res.fty = aaLenFn.fty ∧ res.attrs = aaLenFn.attrs ∧
      LLVM_D_GetRuntimeFunction sPermit emptyModule "_aaLen" =
        .ok (LLVM_D_InitRuntime sPermit,
             { emptyModule with funcs := emptyModule.funcs ++ [res] }, res) ∧
      LLVM_D_GetRuntimeFunction (LLVM_D_InitRuntime sPermit)
          { emptyModule with funcs := emptyModule.funcs ++ [res] } "_aaLen" =
        .ok (LLVM_D_InitRuntime sPermit,
             { emptyModule with funcs := emptyModule.funcs ++ [res] }, res) ∧
      countName (emptyModule.funcs ++ [res]) "_aaLen" = 1 :=
  C7_single_declaration sPermit emptyModule "_aaLen"
    (LLVM_D_BuildRuntimeModule true) aaLenFn rfl rfl (Or.inr ⟨rfl, rfl⟩)
    (by decide) (by decide)

/-- C8 counterexample: `_aaLen` is declared read-only (`ReadOnly`), not
pure/read-none (`ReadNone`), and `_aaIn` carries no non-throwing
(`NoUnwind`) attribute at all — the claim's "pure/read-none and
non-throwing for every read-only associative-array routine" fails on both
counts. -/
theorem C8_counterexample :
    attrsOf (LLVM_D_BuildRuntimeModule true) "_aaLen" =
      some Attr_ReadOnly_NoUnwind_1_NoCapture ∧
    (funcAttrIdx, Attr.ReadNone) ∉ Attr_ReadOnly_NoUnwind_1_NoCapture ∧
    attrsOf (LLVM_D_BuildRuntimeModule true) "_aaIn" = some Attr_ReadOnly_1_3_NoCapture ∧
    (funcAttrIdx, Attr.NoUnwind) ∉ Attr_ReadOnly_1_3_NoCapture := by
  decide

/-- C8 (amended): the read-only associative-array routines carry the
read-only attribute (not read-none): `_aaLen` is read-only and non-throwing
with its AA-handle parameter 1 non-capturing; `_aaIn` is read-only with
parameters 1 and 3 (the AA handle and the key pointer) non-capturing, but
carries neither read-none nor non-throwing. -/
theorem C8_aa_readonly_attrs :
    ∀ cpu : Bool,
      attrsOf (LLVM_D_BuildRuntimeModule cpu) "_aaLen" =
        some Attr_ReadOnly_NoUnwind_1_NoCapture ∧
      attrsOf (LLVM_D_BuildRuntimeModule cpu) "_aaIn" = some Attr_ReadOnly_1_3_NoCapture ∧
      (funcAttrIdx, Attr.ReadOnly) ∈ Attr_ReadOnly_NoUnwind_1_NoCapture ∧
      (funcAttrIdx, Attr.NoUnwind) ∈ Attr_ReadOnly_NoUnwind_1_NoCapture ∧
      (1, Attr.NoCapture) ∈ Attr_ReadOnly_NoUnwind_1_NoCapture ∧
      (funcAttrIdx, Attr.ReadNone) ∉ Attr_ReadOnly_NoUnwind_1_NoCapture ∧
      (funcAttrIdx, Attr.ReadOnly) ∈ Attr_ReadOnly_1_3_NoCapture ∧
      (1, Attr.NoCapture) ∈ Attr_ReadOnly_1_3_NoCapture ∧
      (3, Attr.NoCapture) ∈ Attr_ReadOnly_1_3_NoCapture ∧
      (funcAttrIdx, Attr.ReadNone) ∉ Attr_ReadOnly_1_3_NoCapture ∧
      (funcAttrIdx, Attr.NoUnwind) ∉ Attr_ReadOnly_1_3_NoCapture := by
  intro cpu
  cases cpu <;> decide

/-- C9: the in-compiler descriptor byte-layout construction path is dead:
every active `TypeInfo*Declaration::toDt` override (base plus the twelve
kind subclasses) and `createTypeInfoArray` terminate immediately with an
assertion failure on every input and never return normally. -/
theorem C9_layout_construction_dead :
    (∀ (k : TIKind) (pdt : List Nat), ∃ msg, toDt k pdt = .error (.AssertFail msg)) ∧
    (∀ (sc : Option Nat) (args : List VarExpr) (dim : Nat),
      createTypeInfoArray sc args dim = .error (.AssertFail "0")) := by
  constructor
  · intro k pdt
    cases k <;> exact ⟨_, rfl⟩
  · intro sc args dim
    rfl

/-- C10: `LLVM_D_InitRuntime` and `LLVM_D_FreeRuntime` touch only the
Runtime Module slot: Init builds the module only when absent (twice builds
once), Free always leaves the slot empty and is the identity when nothing
was built, neither touches the policy flags, and lifted to the session
state neither touches any `vtinfo` descriptor, the internal collapse cache,
or the declaration store. -/
theorem C10_runtime_lifecycle (s : RTState) (g : GState) :
    (s.M = none → LLVM_D_InitRuntime s =
      { s with M := some (LLVM_D_BuildRuntimeModule s.cpuIsX86) }) ∧
    (∀ m, s.M = some m → LLVM_D_InitRuntime s = s) ∧
    LLVM_D_InitRuntime (LLVM_D_InitRuntime s) = LLVM_D_InitRuntime s ∧
    (LLVM_D_FreeRuntime s).M = none ∧
    (s.M = none → LLVM_D_FreeRuntime s = s) ∧
    (LLVM_D_FreeRuntime s).noruntime = s.noruntime ∧
    (LLVM_D_FreeRuntime s).runtime_failed = s.runtime_failed ∧
    ({ g with rt := LLVM_D_InitRuntime g.rt } : GState).vtinfo = g.vtinfo ∧
    ({ g with rt := LLVM_D_InitRuntime g.rt } : GState).internalTI = g.internalTI ∧
    ({ g with rt := LLVM_D_InitRuntime g.rt } : GState).declData = g.declData ∧
    ({ g with rt := LLVM_D_FreeRuntime g.rt } : GState).vtinfo = g.vtinfo ∧
    ({ g with rt := LLVM_D_FreeRuntime g.rt } : GState).internalTI = g.internalTI ∧
    ({ g with rt := LLVM_D_FreeRuntime g.rt } : GState).declData = g.declData := by
  refine ⟨fun h => initRuntime_eq_of_none h, fun m h => initRuntime_eq_of_some h,
    ?_, ?_, fun h => freeRuntime_eq_of_none h, ?_, ?_, rfl, rfl, rfl, rfl, rfl, rfl⟩
  · rcases hM : s.M with _ | m
    · rw [initRuntime_eq_of_none hM]
      exact initRuntime_eq_of_some rfl
    · rw [initRuntime_eq_of_some hM, initRuntime_eq_of_some hM]
  · rcases hM : s.M with _ | m
    · rw [freeRuntime_eq_of_none hM]
      exact hM
    · rw [freeRuntime_eq_of_some hM]
  · rcases hM : s.M with _ | m
    · rw [freeRuntime_eq_of_none hM]
    · rw [freeRuntime_eq_of_some hM]
  · rcases hM : s.M with _ | m
    · rw [freeRuntime_eq_of_none hM]
    · rw [freeRuntime_eq_of_some hM]

/-- Witness for C10: lifecycle at the fresh session — building from an
absent module, freeing a session that never built one, and the
descriptor-state frame. -/
theorem C10_witness :
    LLVM_D_InitRuntime sPermit =
      { sPermit with M := some (LLVM_D_BuildRuntimeModule sPermit.cpuIsX86) } ∧
    LLVM_D_FreeRuntime sPermit = sPermit ∧
    ({ initG with rt := LLVM_D_FreeRuntime initG.rt } : GState).vtinfo = initG.vtinfo := by
  obtain ⟨hbuild, -, -, -, hfree, -, -, -, -, -, hfr, -, -⟩ :=
    C10_runtime_lifecycle sPermit initG
  exact ⟨hbuild rfl, hfree rfl, hfr⟩

/-- Witness for C8: the amended attribute facts at the x86 catalogue. -/
theorem C8_witness :
    attrsOf (LLVM_D_BuildRuntimeModule true) "_aaLen" =
      some Attr_ReadOnly_NoUnwind_1_NoCapture ∧
    attrsOf (LLVM_D_BuildRuntimeModule true) "_aaIn" = some Attr_ReadOnly_1_3_NoCapture ∧
    (funcAttrIdx, Attr.ReadOnly) ∈ Attr_ReadOnly_NoUnwind_1_NoCapture ∧
    (funcAttrIdx, Attr.NoUnwind) ∈ Attr_ReadOnly_NoUnwind_1_NoCapture ∧
    (1, Attr.NoCapture) ∈ Attr_ReadOnly_NoUnwind_1_NoCapture ∧
    (funcAttrIdx, Attr.ReadNone) ∉ Attr_ReadOnly_NoUnwind_1_NoCapture ∧
    (funcAttrIdx, Attr.ReadOnly) ∈ Attr_ReadOnly_1_3_NoCapture ∧
    (1, Attr.NoCapture) ∈ Attr_ReadOnly_1_3_NoCapture ∧
    (3, Attr.NoCapture) ∈ Attr_ReadOnly_1_3_NoCapture ∧
    (funcAttrIdx, Attr.ReadNone) ∉ Attr_ReadOnly_1_3_NoCapture ∧
    (funcAttrIdx, Attr.NoUnwind) ∉ Attr_ReadOnly_1_3_NoCapture :=
  C8_aa_readonly_attrs true
